import Mathlib

/-!
Shallow embedding of the LC-3 virtual machine (`src/lc3-vm.c`).

Words are modelled as naturals; every store that can overflow 16 bits in C
reduces modulo 65536 where the C type `uint16_t` truncates.  Memory and the
register file are total functions `Nat → Nat`; the keyboard is a list of
pending `getchar` results (an `Int`, since `getchar` may return `EOF = -1`),
where `select` reports input available exactly when the list is nonempty.
Host `stdout` effects (`putc`, `printf`, `fflush`) are not part of the
machine state and are not modelled; the trap handlers that only print are
identities on the modelled state, exactly as they are on the C machine
state.  `abort()` is modelled by `Option.none` from the step function.
-/

namespace LC3

/-- Register indices, from `enum registers`. -/
def R_R0 : Nat := 0
def R_R7 : Nat := 7
def R_PC : Nat := 8
def R_COND : Nat := 9

/-- Condition flags, from `enum flags`. -/
def FL_POS : Nat := 1
def FL_ZRO : Nat := 2
def FL_NEG : Nat := 4

/-- Memory mapped register addresses, from `enum mem_regs`. -/
def MR_KBSR : Nat := 0xFE00
def MR_KBDR : Nat := 0xFE02

/-- Number of elements of the C array `uint16_t memory[UINT16_MAX]`:
`UINT16_MAX` is 65535, so valid indices are 0 .. 65534. -/
def MEMORY_SIZE : Nat := 65535

/-- The cast `(uint16_t)v` of a C `int` value. -/
def toWord (i : Int) : Nat := (i % 65536).toNat

/-- Pending keyboard input: the list of results successive `getchar` calls
would return.  `select` sees input pending iff the list is nonempty. -/
abbrev Dev := List Int

/-- Source `check_key`: nonblocking poll, true iff a character is pending. -/
def check_key (dev : Dev) : Bool := !dev.isEmpty

/-- Source `getchar()`: blocking read of one character; on exhausted input it
returns `EOF` (-1). -/
def getchar : Dev → Int × Dev
  | [] => (-1, [])
  | c :: rest => (c, rest)

/-- Pointwise update of a register file or memory. -/
def updFn (f : Nat → Nat) (i v : Nat) : Nat → Nat :=
  fun j => if j = i then v else f j

/-- Source `sign_extend`: if the top bit of the `bit_count`-wide
field is set, or in `0xFFFF << bit_count` (the result is truncated to 16
bits when stored back into the `uint16_t`). -/
def sign_extend (x : Nat) (bit_count : Nat) : Nat :=
  if (x >>> (bit_count - 1)) &&& 1 = 1 then (x ||| (0xFFFF <<< bit_count)) % 65536
  else x

/-- Source `update_flags`: sets `reg[R_COND]` from the current
value of `reg[r]`. -/
def update_flags (reg : Nat → Nat) (r : Nat) : Nat → Nat :=
  if reg r = 0 then updFn reg R_COND FL_ZRO
  else if reg r >>> 15 ≠ 0 then updFn reg R_COND FL_NEG
  else updFn reg R_COND FL_POS

/-- Source `mem_read`: reading `MR_KBSR` polls the keyboard and
refreshes the two device cells before the lookup; every other address is a
plain lookup.  Returns (value, new memory, new device). -/
def mem_read (mem : Nat → Nat) (dev : Dev) (addr : Nat) :
    Nat × (Nat → Nat) × Dev :=
  if addr = MR_KBSR then
    if check_key dev then
      let c := (getchar dev).1
      let mem2 := updFn (updFn mem MR_KBSR (1 <<< 15)) MR_KBDR (toWord c)
      (mem2 addr, mem2, (getchar dev).2)
    else
      let mem2 := updFn mem MR_KBSR 0
      (mem2 addr, mem2, dev)
  else (mem addr, mem, dev)

/-- Source `mem_write`: a plain store, no device behaviour. -/
def mem_write (mem : Nat → Nat) (addr val : Nat) : Nat → Nat :=
  updFn mem addr val

/-- The machine state the C globals hold: `reg`, `memory`, the pending
keyboard input, and the `running` flag. -/
structure St where
  reg : Nat → Nat
  mem : Nat → Nat
  dev : Dev
  running : Bool

/-- Handler for the `and` opcode. -/
def and (instruction : Nat) (s : St) : St :=
  let dr := (instruction >>> 9) &&& 0x7
  let sr1 := (instruction >>> 6) &&& 0x7
  let immediate_flag := (instruction >>> 5) &&& 0x1
  let reg2 :=
    if immediate_flag ≠ 0 then
      updFn s.reg dr (s.reg sr1 &&& sign_extend (instruction &&& 0x1F) 5)
    else
      updFn s.reg dr (s.reg sr1 &&& s.reg (instruction &&& 0x7))
  { s with reg := update_flags reg2 dr }

/-- Handler for the `not` opcode: `~reg[sr]` truncated to 16 bits. -/
def not (instruction : Nat) (s : St) : St :=
  let dr := (instruction >>> 9) &&& 0x7
  let sr := (instruction >>> 6) &&& 0x7
  let reg2 := updFn s.reg dr (s.reg sr ^^^ 0xFFFF)
  { s with reg := update_flags reg2 dr }

/-- Handler for the `add` opcode. -/
def add (instruction : Nat) (s : St) : St :=
  let dr := (instruction >>> 9) &&& 0x7
  let r1 := (instruction >>> 6) &&& 0x7
  let immediate_flag := (instruction >>> 5) &&& 0x1
  let reg2 :=
    if immediate_flag ≠ 0 then
      updFn s.reg dr ((s.reg r1 + sign_extend (instruction &&& 0x1F) 5) % 65536)
    else
      updFn s.reg dr ((s.reg r1 + s.reg (instruction &&& 0x7)) % 65536)
  { s with reg := update_flags reg2 dr }

/-- Handler for the `br` opcode. -/
def br (instruction : Nat) (s : St) : St :=
  let offset := sign_extend (instruction &&& 0x1FF) 9
  let cond_flag := (instruction >>> 9) &&& 0x7
  if cond_flag &&& s.reg R_COND ≠ 0 then
    { s with reg := updFn s.reg R_PC ((s.reg R_PC + offset) % 65536) }
  else s

/-- Handler for the `jmp` opcode. -/
def jmp (instruction : Nat) (s : St) : St :=
  let sr := (instruction >>> 6) &&& 0x7
  { s with reg := updFn s.reg R_PC (s.reg sr) }

/-- Handler for the `jsr` opcode: R7 is assigned the (post-increment) PC *before*
the base register is read. -/
def jsr (instruction : Nat) (s : St) : St :=
  let offset_flag := (instruction >>> 11) &&& 0x1
  let reg1 := updFn s.reg R_R7 (s.reg R_PC)
  if offset_flag ≠ 0 then
    { s with
        reg := updFn reg1 R_PC ((reg1 R_PC + sign_extend (instruction &&& 0x7FF) 11) % 65536) }
  else
    { s with reg := updFn reg1 R_PC (reg1 ((instruction >>> 6) &&& 0x7)) }

/-- Handler for the `ld` opcode. -/
def ld (instruction : Nat) (s : St) : St :=
  let dr := (instruction >>> 9) &&& 0x7
  let offset := sign_extend (instruction &&& 0x1FF) 9
  let r := mem_read s.mem s.dev ((s.reg R_PC + offset) % 65536)
  { s with reg := update_flags (updFn s.reg dr r.1) dr, mem := r.2.1, dev := r.2.2 }

/-- Handler for the `st` opcode. -/
def st (instruction : Nat) (s : St) : St :=
  let sr := (instruction >>> 9) &&& 0x7
  let offset := sign_extend (instruction &&& 0x1FF) 9
  { s with mem := mem_write s.mem ((s.reg R_PC + offset) % 65536) (s.reg sr) }

/-- Handler for the `lea` opcode. -/
def lea (instruction : Nat) (s : St) : St :=
  let dr := (instruction >>> 9) &&& 0x7
  let offset := sign_extend (instruction &&& 0x1FF) 9
  { s with reg := update_flags (updFn s.reg dr ((s.reg R_PC + offset) % 65536)) dr }

/-- Handler for the `ldi` opcode: two chained device-aware reads. -/
def ldi (instruction : Nat) (s : St) : St :=
  let dr := (instruction >>> 9) &&& 0x7
  let offset := sign_extend (instruction &&& 0x1FF) 9
  let r1 := mem_read s.mem s.dev ((s.reg R_PC + offset) % 65536)
  let r2 := mem_read r1.2.1 r1.2.2 r1.1
  { s with reg := update_flags (updFn s.reg dr r2.1) dr, mem := r2.2.1, dev := r2.2.2 }

/-- Handler for the `sti` opcode. -/
def sti (instruction : Nat) (s : St) : St :=
  let sr := (instruction >>> 9) &&& 0x7
  let offset := sign_extend (instruction &&& 0x1FF) 9
  let r1 := mem_read s.mem s.dev ((s.reg R_PC + offset) % 65536)
  { s with mem := mem_write r1.2.1 r1.1 (s.reg sr), dev := r1.2.2 }

/-- Handler for the `ldr` opcode. -/
def ldr (instruction : Nat) (s : St) : St :=
  let dr := (instruction >>> 9) &&& 0x7
  let r1 := (instruction >>> 6) &&& 0x7
  let offset := sign_extend (instruction &&& 0x3F) 6
  let r := mem_read s.mem s.dev ((s.reg r1 + offset) % 65536)
  { s with reg := update_flags (updFn s.reg dr r.1) dr, mem := r.2.1, dev := r.2.2 }

/-- Handler for the `str` opcode. -/
def str (instruction : Nat) (s : St) : St :=
  let sr := (instruction >>> 9) &&& 0x7
  let r1 := (instruction >>> 6) &&& 0x7
  let offset := sign_extend (instruction &&& 0x3F) 6
  { s with mem := mem_write s.mem ((s.reg r1 + offset) % 65536) (s.reg sr) }

/-- Source `trap_getc`: `reg[R_R0] = (uint16_t)getchar();`. -/
def trap_getc (s : St) : St :=
  { s with reg := updFn s.reg R_R0 (toWord (getchar s.dev).1),
           dev := (getchar s.dev).2 }

/-- Source `trap_out`: prints only; identity on the machine state. -/
def trap_out (s : St) : St := s

/-- Source `trap_puts`: prints only; identity on the machine state. -/
def trap_puts (s : St) : St := s

/-- Source `trap_in`: prompt to stdout, then `reg[R_R0] = (uint16_t)getchar();`. -/
def trap_in (s : St) : St :=
  { s with reg := updFn s.reg R_R0 (toWord (getchar s.dev).1),
           dev := (getchar s.dev).2 }

/-- Source `trap_putsp`: prints only; identity on the machine state. -/
def trap_putsp (s : St) : St := s

/-- Source `trap_halt`: clears the `running` flag. -/
def trap_halt (s : St) : St := { s with running := false }

/-- Source `trap` dispatcher: the six defined vectors; any other vector falls
through the `switch` unchanged. -/
def trap (instruction : Nat) (s : St) : St :=
  let trapvect := instruction &&& 0xFF
  if trapvect = 0x22 then trap_puts s
  else if trapvect = 0x20 then trap_getc s
  else if trapvect = 0x21 then trap_out s
  else if trapvect = 0x23 then trap_in s
  else if trapvect = 0x24 then trap_putsp s
  else if trapvect = 0x25 then trap_halt s
  else s

/-- One iteration of the run loop: fetch `mem_read(reg[R_PC]++)`, decode the
top 4 bits, dispatch.  `RTI`, `RES` and the unreachable default `abort()`;
that is `none`. -/
def step (s : St) : Option St :=
  let fr := mem_read s.mem s.dev (s.reg R_PC)
  let instruction := fr.1
  let s1 : St := ⟨updFn s.reg R_PC ((s.reg R_PC + 1) % 65536), fr.2.1, fr.2.2, s.running⟩
  let op := instruction >>> 12
  if op = 0 then some (br instruction s1)
  else if op = 1 then some (add instruction s1)
  else if op = 2 then some (ld instruction s1)
  else if op = 3 then some (st instruction s1)
  else if op = 4 then some (jsr instruction s1)
  else if op = 5 then some (and instruction s1)
  else if op = 6 then some (ldr instruction s1)
  else if op = 7 then some (str instruction s1)
  else if op = 8 then none
  else if op = 9 then some (not instruction s1)
  else if op = 10 then some (ldi instruction s1)
  else if op = 11 then some (sti instruction s1)
  else if op = 12 then some (jmp instruction s1)
  else if op = 13 then none
  else if op = 14 then some (lea instruction s1)
  else if op = 15 then some (trap instruction s1)
  else none

/-- The state at the moment the run loop begins in `main`: the globals are
zero-initialized, images have been loaded into memory (`mem0`), the PC is
set to `0x3000` and `running` to 1.  `reg[R_COND]` is never written before
the loop. -/
def initialState (mem0 : Nat → Nat) (dev0 : Dev) : St :=
  { reg := updFn (fun _ => 0) R_PC 0x3000
    mem := mem0
    dev := dev0
    running := true }

/-- A concrete state used to witness the JSRR claim: `R7 = 0x1234`,
post-increment `PC = 0x3001`. -/
def stJ : St :=
  { reg := fun i => if i = 8 then 0x3001 else if i = 7 then 0x1234 else 0
    mem := fun _ => 0
    dev := []
    running := true }

/-- A concrete state used to witness the GETC/IN claim: the character 65 is
pending. -/
def stG : St :=
  { reg := fun i => if i = 8 then 0x3000 else 0
    mem := fun _ => 0
    dev := [65]
    running := true }

/-- A concrete state used to witness the taken BR claim: flag NEGATIVE,
post-increment `PC = 0x3001`. -/
def stB : St :=
  { reg := fun i => if i = 8 then 0x3001 else if i = 9 then 4 else 0
    mem := fun _ => 0
    dev := []
    running := true }

/-- A concrete state used to witness the untaken BR claim: flag POSITIVE,
post-increment `PC = 0x3001`. -/
def stP : St :=
  { reg := fun i => if i = 8 then 0x3001 else if i = 9 then 1 else 0
    mem := fun _ => 0
    dev := []
    running := true }

/-- A concrete state used to witness flag preservation: flag ZERO,
`PC = 0x3000`, zero memory (so the fetched instruction is an untaken BR). -/
def stW : St :=
  { reg := fun i => if i = 8 then 0x3000 else if i = 9 then 2 else 0
    mem := fun _ => 0
    dev := []
    running := true }

/-- A concrete state used to witness the unknown-trap claim: every memory
word is the TRAP instruction `0xF026` (undefined vector `0x26`). -/
def stT : St :=
  { reg := fun i => if i = 8 then 0x3000 else 0
    mem := fun _ => 0xF026
    dev := []
    running := true }

/-- The condition-flag invariant: the flag is one of the three singleton
bit values. -/
def flag3 (v : Nat) : Prop := v = FL_NEG ∨ v = FL_ZRO ∨ v = FL_POS

/-- The flag invariant read off a state. -/
def flagOK (s : St) : Prop := flag3 (s.reg R_COND)

instance (v : Nat) : Decidable (flag3 v) := by unfold flag3; infer_instance

instance (s : St) : Decidable (flagOK s) := by unfold flagOK; infer_instance

/-- Helper: an update read back at a different index. -/
theorem updFn_ne {f : Nat → Nat} {i v j : Nat} (h : j ≠ i) : updFn f i v j = f j := by
  simp [updFn, h]

/-- Helper: an update read back at its own index. -/
theorem updFn_eq (f : Nat → Nat) (i v : Nat) : updFn f i v i = v := by
  simp [updFn]

/-- Helper: `update_flags` always leaves one of the three flag values. -/
theorem update_flags_flag3 (reg : Nat → Nat) (r : Nat) :
    flag3 (update_flags reg r R_COND) := by
  unfold update_flags flag3
  split_ifs <;> simp [updFn, FL_NEG, FL_ZRO, FL_POS]

/-- Helper: `update_flags` only writes the flag cell. -/
theorem update_flags_ne (reg : Nat → Nat) (r j : Nat) (h : j ≠ R_COND) :
    update_flags reg r j = reg j := by
  unfold update_flags
  split_ifs <;> simp [updFn, h]

/-- Helper: the source top-bit test agrees with `Nat.testBit`. -/
theorem topbit_test (x n : Nat) :
    ((x >>> (n - 1)) &&& 1 = 1) ↔ x.testBit (n - 1) = true := by
  rw [Nat.and_one_is_mod, Nat.shiftRight_eq_div_pow, Nat.testBit_to_div_mod]
  simp

/-- C1: the spec claims a 65536-word array in which every `Word` address is
in range; the declaration `uint16_t memory[UINT16_MAX]` has only 65535
elements, so the Word address `0xFFFF` indexes outside the array. -/
theorem c1_memory_bounds :
    MEMORY_SIZE = 65535 ∧ (0xFFFF : Nat) < 65536 ∧
      ¬ (∀ addr, addr < 65536 → addr < MEMORY_SIZE) := by
  refine ⟨rfl, by norm_num, fun h => ?_⟩
  have h1 := h 65535 (by norm_num)
  unfold MEMORY_SIZE at h1
  omega

/-- C4: `update_flags` sets ZERO on a zero word, NEGATIVE exactly when bit
15 is set, POSITIVE otherwise, and always lands on exactly one of the three
flag values. -/
theorem c4_update_flags (reg : Nat → Nat) (r : Nat) (h : reg r < 65536) :
    (update_flags reg r R_COND = FL_ZRO ↔ reg r = 0) ∧
    (update_flags reg r R_COND = FL_NEG ↔ (reg r).testBit 15 = true) ∧
    (update_flags reg r R_COND = FL_POS ↔ reg r ≠ 0 ∧ (reg r).testBit 15 = false) ∧
    (update_flags reg r R_COND = FL_ZRO ∨ update_flags reg r R_COND = FL_NEG ∨
      update_flags reg r R_COND = FL_POS) := by
  have hd : reg r / 2 ^ 15 < 2 := by
    have : reg r < 2 * 2 ^ 15 := by norm_num; omega
    exact Nat.div_lt_of_lt_mul this
  have hb : (reg r).testBit 15 = true ↔ reg r >>> 15 ≠ 0 := by
    rw [Nat.testBit_to_div_mod, Nat.shiftRight_eq_div_pow]
    simp only [decide_eq_true_eq]
    omega
  unfold update_flags
  split_ifs with h1 h2 <;>
    simp_all [updFn, FL_ZRO, FL_NEG, FL_POS, R_COND]

/-- C4 witness at the word `0x8000`. -/
theorem c4_update_flags_witness :
    update_flags (fun _ => 32768) 0 R_COND = FL_NEG :=
  (c4_update_flags (fun _ => 32768) 0 (by norm_num)).2.1.mpr (by decide)

/-- C5: `sign_extend` on a field of 5, 6, 9 or 11 bits yields the 16-bit
word whose low bits are the field and whose high bits replicate the field's
top bit; in particular five-bit `11111` extends to `0xFFFF` and five-bit
`00011` to `3`. -/
theorem c5_sign_extend (n x : Nat)
    (hn : n = 5 ∨ n = 6 ∨ n = 9 ∨ n = 11) (hx : x < 2 ^ n) :
    (sign_extend x n < 65536 ∧
      ∀ i, i < 16 → (sign_extend x n).testBit i =
        if i < n then x.testBit i else x.testBit (n - 1)) ∧
    sign_extend 31 5 = 0xFFFF ∧ sign_extend 3 5 = 3 := by
  have hn16 : n ≤ 16 := by rcases hn with rfl | rfl | rfl | rfl <;> norm_num
  refine ⟨?_, by decide, by decide⟩
  unfold sign_extend
  by_cases htop : (x >>> (n - 1)) &&& 1 = 1
  · rw [if_pos htop]
    have htb : x.testBit (n - 1) = true := (topbit_test x n).mp htop
    refine ⟨Nat.mod_lt _ (by norm_num), fun i hi => ?_⟩
    have h16 : (65536 : Nat) = 2 ^ 16 := by norm_num
    have hff : (0xFFFF : Nat) = 2 ^ 16 - 1 := by norm_num
    rw [h16, Nat.testBit_mod_two_pow, Nat.testBit_or, hff, Nat.testBit_shiftLeft,
      Nat.testBit_two_pow_sub_one]
    by_cases hin : i < n
    · have hnge : ¬ (i ≥ n) := by omega
      simp [hi, hin, hnge]
    · have hge : i ≥ n := by omega
      have hxi : x.testBit i = false :=
        Nat.testBit_lt_two_pow
          (lt_of_lt_of_le hx (Nat.pow_le_pow_right (by norm_num) (by omega)))
      have hsub : i - n < 16 := by omega
      simp [hi, hge, hxi, htb, hin, hsub]
  · rw [if_neg htop]
    have htb : x.testBit (n - 1) = false := by
      rw [Nat.testBit_to_div_mod]
      simp only [decide_eq_false_iff_not]
      intro hcon
      exact htop (by rw [Nat.and_one_is_mod, Nat.shiftRight_eq_div_pow]; exact hcon)
    refine ⟨lt_of_lt_of_le hx ?_, fun i hi => ?_⟩
    · calc 2 ^ n ≤ 2 ^ 16 := Nat.pow_le_pow_right (by norm_num) hn16
        _ = 65536 := by norm_num
    · by_cases hin : i < n
      · simp [hin]
      · have hxi : x.testBit i = false :=
          Nat.testBit_lt_two_pow
            (lt_of_lt_of_le hx (Nat.pow_le_pow_right (by norm_num) (by omega)))
        simp [hin, hxi, htb]

/-- C5 witness at the five-bit field `11111`. -/
theorem c5_sign_extend_witness :
    (sign_extend 31 5 < 65536 ∧
      ∀ i, i < 16 → (sign_extend 31 5).testBit i =
        if i < 5 then (31 : Nat).testBit i else (31 : Nat).testBit (5 - 1)) ∧
    sign_extend 31 5 = 0xFFFF ∧ sign_extend 3 5 = 3 :=
  c5_sign_extend 5 31 (by norm_num) (by norm_num)

/-- C2: reading the status address polls the device: with a character
pending, the status word becomes `0x8000` (bit 15 set) and the data word
receives the character; with none pending the status word is cleared to 0;
both branches return the refreshed stored word; any other address is a pure
lookup. -/
theorem c2_mem_read_device (mem : Nat → Nat) (dev : Dev) (addr : Nat) :
    (addr = MR_KBSR → check_key dev = true →
      (mem_read mem dev addr).1 = 0x8000 ∧
      ((mem_read mem dev addr).2.1 MR_KBSR).testBit 15 = true ∧
      (mem_read mem dev addr).2.1 MR_KBDR = toWord (getchar dev).1 ∧
      (∀ a, a ≠ MR_KBSR → a ≠ MR_KBDR → (mem_read mem dev addr).2.1 a = mem a) ∧
      (mem_read mem dev addr).1 = (mem_read mem dev addr).2.1 addr) ∧
    (addr = MR_KBSR → check_key dev = false →
      (mem_read mem dev addr).1 = 0 ∧
      (mem_read mem dev addr).2.1 MR_KBSR = 0 ∧
      (∀ a, a ≠ MR_KBSR → (mem_read mem dev addr).2.1 a = mem a) ∧
      (mem_read mem dev addr).2.2 = dev ∧
      (mem_read mem dev addr).1 = (mem_read mem dev addr).2.1 addr) ∧
    (addr ≠ MR_KBSR → mem_read mem dev addr = (mem addr, mem, dev)) := by
  refine ⟨?_, ?_, ?_⟩
  · rintro rfl hk
    simp only [mem_read, hk, if_true, ite_true]
    refine ⟨?_, ?_, ?_, ?_, trivial⟩
    · rw [updFn_ne (by norm_num [MR_KBSR, MR_KBDR]), updFn_eq]
      decide
    · rw [updFn_ne (by norm_num [MR_KBSR, MR_KBDR]), updFn_eq]
      decide
    · rw [updFn_eq]
    · intro a h1 h2
      rw [updFn_ne h2, updFn_ne h1]
      
  · rintro rfl hk
    simp only [mem_read, hk, Bool.false_eq_true, if_false, ite_true, if_true]
    refine ⟨?_, ?_, ?_, trivial, trivial⟩
    · rw [updFn_eq]
    · rw [updFn_eq]
    · intro a h1
      rw [updFn_ne h1]
  · intro h
    simp [mem_read, h]

/-- C2 witness: a pending character `65` read through the status address. -/
theorem c2_mem_read_device_witness :
    (mem_read (fun _ => 7) [65] MR_KBSR).1 = 0x8000 ∧
    (mem_read (fun _ => 7) [] 100) = ((7 : Nat), (fun _ => (7 : Nat)), ([] : Dev)) :=
  ⟨((c2_mem_read_device (fun _ => 7) [65] MR_KBSR).1 rfl (by decide)).1,
    (c2_mem_read_device (fun _ => 7) [] 100).2.2 (by norm_num [MR_KBSR])⟩

/-- C8: a read at a non-device address is pure and repeatable, and two
consecutive status-address reads with no pending input both return 0. -/
theorem c8_read_idempotent (mem : Nat → Nat) (dev : Dev) (a : Nat)
    (h1 : a ≠ MR_KBSR) (h2 : a ≠ MR_KBDR) :
    ((mem_read mem dev a).1 = mem a ∧
      (mem_read mem dev a).2.1 = mem ∧
      (mem_read mem dev a).2.2 = dev ∧
      (mem_read (mem_read mem dev a).2.1 (mem_read mem dev a).2.2 a).1 = mem a) ∧
    (check_key dev = false →
      (mem_read mem dev MR_KBSR).1 = 0 ∧
      (mem_read (mem_read mem dev MR_KBSR).2.1 (mem_read mem dev MR_KBSR).2.2
        MR_KBSR).1 = 0) := by
  constructor
  · simp [mem_read, h1]
  · intro hk
    simp only [mem_read, hk, Bool.false_eq_true, if_false, ite_true, if_true]
    exact ⟨updFn_eq _ _ _, updFn_eq _ _ _⟩

/-- C8 witness: address 100 over constant memory, and an empty device. -/
theorem c8_read_idempotent_witness :
    ((mem_read (fun _ => 7) [] 100).1 = 7 ∧
      (mem_read (fun _ => 7) [] 100).2.1 = (fun _ => 7) ∧
      (mem_read (fun _ => 7) [] 100).2.2 = ([] : Dev) ∧
      (mem_read (mem_read (fun _ => 7) [] 100).2.1 (mem_read (fun _ => 7) [] 100).2.2
        100).1 = 7) ∧
    (check_key [] = false →
      (mem_read (fun _ => 7) [] MR_KBSR).1 = 0 ∧
      (mem_read (mem_read (fun _ => 7) [] MR_KBSR).2.1
        (mem_read (fun _ => 7) [] MR_KBSR).2.2 MR_KBSR).1 = 0) :=
  c8_read_idempotent (fun _ => 7) [] 100 (by norm_num [MR_KBSR]) (by norm_num [MR_KBDR])

/-- C9: a JSRR through base register R7 jumps to the post-increment PC just
saved into R7, not to the value R7 held before the instruction. -/
theorem c9_jsrr_r7 (instruction : Nat) (s : St)
    (hflag : (instruction >>> 11) &&& 0x1 = 0)
    (hbase : (instruction >>> 6) &&& 0x7 = 7) :
    (jsr instruction s).reg R_PC = s.reg R_PC ∧
    (jsr instruction s).reg R_R7 = s.reg R_PC ∧
    (s.reg R_R7 ≠ s.reg R_PC → (jsr instruction s).reg R_PC ≠ s.reg R_R7) := by
  unfold jsr
  rw [hflag]
  simp only [ne_eq, not_true_eq_false, if_false, hbase]
  have e1 : updFn s.reg R_R7 (s.reg R_PC) 7 = s.reg R_PC := updFn_eq _ _ _
  refine ⟨?_, ?_, ?_⟩
  · show updFn (updFn s.reg R_R7 (s.reg R_PC)) R_PC _ R_PC = _
    rw [updFn_eq, e1]
  · show updFn (updFn s.reg R_R7 (s.reg R_PC)) R_PC _ R_R7 = _
    rw [updFn_ne (by norm_num [R_R7, R_PC]), updFn_eq]
  · intro hne
    show updFn (updFn s.reg R_R7 (s.reg R_PC)) R_PC _ R_PC ≠ _
    rw [updFn_eq, e1]
    exact fun hc => hne hc.symm

/-- C9 witness: JSRR with base R7, old `R7 = 0x1234`, post-increment
`PC = 0x3001`. -/
theorem c9_jsrr_r7_witness :
    (jsr 0x41C0 stJ).reg R_PC = stJ.reg R_PC ∧
    (jsr 0x41C0 stJ).reg R_R7 = stJ.reg R_PC ∧
    (stJ.reg R_R7 ≠ stJ.reg R_PC → (jsr 0x41C0 stJ).reg R_PC ≠ stJ.reg R_R7) :=
  c9_jsrr_r7 0x41C0 stJ (by decide) (by decide)

/-- C10: GETC and IN overwrite all of R0 with the `uint16_t` cast of the
read result: an in-range character keeps a zero high byte, EOF (-1) becomes
`0xFFFF`; neither trap touches the condition flag. -/
theorem c10_trap_getc_in (s : St) :
    (trap_getc s).reg R_R0 = toWord (getchar s.dev).1 ∧
    (trap_in s).reg R_R0 = toWord (getchar s.dev).1 ∧
    (trap_getc s).reg R_COND = s.reg R_COND ∧
    (trap_in s).reg R_COND = s.reg R_COND ∧
    (∀ c : Int, 0 ≤ c → c ≤ 255 → toWord c = c.toNat ∧ toWord c >>> 8 = 0) ∧
    toWord (-1) = 0xFFFF := by
  simp only [trap_getc, trap_in]
  refine ⟨updFn_eq _ _ _, updFn_eq _ _ _,
    updFn_ne (by norm_num [R_COND, R_R0]), updFn_ne (by norm_num [R_COND, R_R0]),
    ?_, by decide⟩
  intro c hc0 hc255
  have hmod : c % 65536 = c := Int.emod_eq_of_lt hc0 (by omega)
  constructor
  · rw [toWord, hmod]
  · rw [toWord, hmod, Nat.shiftRight_eq_div_pow]
    have : c.toNat ≤ 255 := by omega
    omega

/-- C10 witness: a state about to read the character 65. -/
theorem c10_trap_getc_in_witness :
    (trap_getc stG).reg R_R0 = toWord (getchar stG.dev).1 ∧
    toWord 65 = (65 : Int).toNat ∧ toWord 65 >>> 8 = 0 :=
  ⟨(c10_trap_getc_in stG).1,
    ((c10_trap_getc_in stG).2.2.2.2.1 65 (by norm_num) (by norm_num)).1,
    ((c10_trap_getc_in stG).2.2.2.2.1 65 (by norm_num) (by norm_num)).2⟩

/-- C6: BR adds the sign-extended offset to the post-increment PC exactly
when the nzp mask meets the current flag bitmask; otherwise the PC is left
alone; in both cases every other register, the flag and the memory are
untouched. -/
theorem c6_br (instruction : Nat) (s : St) :
    ((((instruction >>> 9) &&& 0x7) &&& s.reg R_COND ≠ 0 →
      (br instruction s).reg R_PC =
        (s.reg R_PC + sign_extend (instruction &&& 0x1FF) 9) % 65536) ∧
    (((instruction >>> 9) &&& 0x7) &&& s.reg R_COND = 0 →
      (br instruction s).reg R_PC = s.reg R_PC)) ∧
    (∀ i, i ≠ R_PC → (br instruction s).reg i = s.reg i) ∧
    (br instruction s).mem = s.mem ∧
    (br instruction s).dev = s.dev ∧
    (br instruction s).running = s.running := by
  simp only [br]
  by_cases h : ((instruction >>> 9) &&& 0x7) &&& s.reg R_COND ≠ 0
  · rw [if_pos h]
    refine ⟨⟨fun _ => ?_, fun hc => absurd hc h⟩, fun i hi => ?_, rfl, rfl, rfl⟩
    · show updFn s.reg R_PC ((s.reg R_PC + sign_extend (instruction &&& 0x1FF) 9) % 65536)
        R_PC = _
      exact updFn_eq _ _ _
    · show updFn s.reg R_PC ((s.reg R_PC + sign_extend (instruction &&& 0x1FF) 9) % 65536)
        i = s.reg i
      exact updFn_ne hi
  · rw [if_neg h]
    exact ⟨⟨fun hc => absurd hc h, fun _ => rfl⟩, fun i _ => rfl, rfl, rfl, rfl⟩

/-- C6 witness: flag NEGATIVE, mask for N and Z, offset 5, from
`PC = 0x3001`; and the same mask with flag POSITIVE. -/
theorem c6_br_witness :
    (br 0x0C05 stB).reg R_PC = (stB.reg R_PC + sign_extend (0x0C05 &&& 0x1FF) 9) % 65536 ∧
    (br 0x0C05 stP).reg R_PC = stP.reg R_PC :=
  ⟨(c6_br 0x0C05 stB).1.1 (by decide), (c6_br 0x0C05 stP).1.2 (by decide)⟩

/-- C7: a TRAP whose vector is none of the six defined ones leaves the
whole state unchanged, and a full fetch-decode-execute step on such an
instruction only advances the PC. -/
theorem c7_unknown_trap (instruction : Nat) (s : St)
    (h20 : instruction &&& 0xFF ≠ 0x20) (h21 : instruction &&& 0xFF ≠ 0x21)
    (h22 : instruction &&& 0xFF ≠ 0x22) (h23 : instruction &&& 0xFF ≠ 0x23)
    (h24 : instruction &&& 0xFF ≠ 0x24) (h25 : instruction &&& 0xFF ≠ 0x25) :
    trap instruction s = s ∧
    (s.reg R_PC ≠ MR_KBSR → s.mem (s.reg R_PC) = instruction →
      instruction >>> 12 = 15 →
      step s = some { s with reg := updFn s.reg R_PC ((s.reg R_PC + 1) % 65536) }) := by
  have htrap : ∀ t : St, trap instruction t = t := by
    intro t
    simp only [trap]
    rw [if_neg h22, if_neg h20, if_neg h21, if_neg h23, if_neg h24, if_neg h25]
  refine ⟨htrap s, fun hpc hfetch hop => ?_⟩
  simp only [step, mem_read, if_neg hpc, hfetch, hop]
  norm_num
  exact htrap _

/-- Helper: `add` establishes the flag invariant. -/
theorem flag3_add (instruction : Nat) (s : St) :
    flag3 ((add instruction s).reg R_COND) := by
  simp only [add]
  exact update_flags_flag3 _ _

/-- Helper: `and` establishes the flag invariant. -/
theorem flag3_and (instruction : Nat) (s : St) :
    flag3 ((and instruction s).reg R_COND) := by
  simp only [and]
  exact update_flags_flag3 _ _

/-- Helper: `not` establishes the flag invariant. -/
theorem flag3_not (instruction : Nat) (s : St) :
    flag3 ((not instruction s).reg R_COND) := by
  simp only [not]
  exact update_flags_flag3 _ _

/-- Helper: `ld` establishes the flag invariant. -/
theorem flag3_ld (instruction : Nat) (s : St) :
    flag3 ((ld instruction s).reg R_COND) := by
  simp only [ld]
  exact update_flags_flag3 _ _

/-- Helper: `ldi` establishes the flag invariant. -/
theorem flag3_ldi (instruction : Nat) (s : St) :
    flag3 ((ldi instruction s).reg R_COND) := by
  simp only [ldi]
  exact update_flags_flag3 _ _

/-- Helper: `ldr` establishes the flag invariant. -/
theorem flag3_ldr (instruction : Nat) (s : St) :
    flag3 ((ldr instruction s).reg R_COND) := by
  simp only [ldr]
  exact update_flags_flag3 _ _

/-- Helper: `lea` establishes the flag invariant. -/
theorem flag3_lea (instruction : Nat) (s : St) :
    flag3 ((lea instruction s).reg R_COND) := by
  simp only [lea]
  exact update_flags_flag3 _ _

/-- Helper: `br` preserves the flag invariant. -/
theorem flag3_br (instruction : Nat) (s : St) (h : flag3 (s.reg R_COND)) :
    flag3 ((br instruction s).reg R_COND) := by
  simp only [br]
  split_ifs <;> exact h

/-- Helper: `jmp` preserves the flag invariant. -/
theorem flag3_jmp (instruction : Nat) (s : St) (h : flag3 (s.reg R_COND)) :
    flag3 ((jmp instruction s).reg R_COND) := by
  simp only [jmp]
  exact h

/-- Helper: `jsr` preserves the flag invariant. -/
theorem flag3_jsr (instruction : Nat) (s : St) (h : flag3 (s.reg R_COND)) :
    flag3 ((jsr instruction s).reg R_COND) := by
  simp only [jsr]
  split_ifs <;> exact h

/-- Helper: `st` preserves the flag invariant. -/
theorem flag3_st (instruction : Nat) (s : St) (h : flag3 (s.reg R_COND)) :
    flag3 ((st instruction s).reg R_COND) := by
  simp only [st]
  exact h

/-- Helper: `sti` preserves the flag invariant. -/
theorem flag3_sti (instruction : Nat) (s : St) (h : flag3 (s.reg R_COND)) :
    flag3 ((sti instruction s).reg R_COND) := by
  simp only [sti]
  exact h

/-- Helper: `str` preserves the flag invariant. -/
theorem flag3_str (instruction : Nat) (s : St) (h : flag3 (s.reg R_COND)) :
    flag3 ((str instruction s).reg R_COND) := by
  simp only [str]
  exact h

/-- Helper: `trap` preserves the flag invariant. -/
theorem flag3_trap (instruction : Nat) (s : St) (h : flag3 (s.reg R_COND)) :
    flag3 ((trap instruction s).reg R_COND) := by
  simp only [trap, trap_puts, trap_getc, trap_out, trap_in, trap_putsp, trap_halt]
  split_ifs <;> exact h

/-- C3 counterexample: at the moment the run loop begins the flag register
holds 0, which is none of NEGATIVE, ZERO, POSITIVE. -/
theorem c3_initial_flag_not_flag3 :
    ¬ flagOK (initialState (fun _ => 0) []) := by
  decide

set_option maxHeartbeats 1600000 in
/-- C3, amended: the flag register is 0 (not one of the three values) when
the run loop begins; once it holds one of NEGATIVE, ZERO, POSITIVE, every
completed fetch-decode-execute step keeps it so. -/
theorem c3_flag_invariant :
    (∀ mem0 dev0, (initialState mem0 dev0).reg R_COND = 0) ∧
    (∀ s s2 : St, flagOK s → step s = some s2 → flagOK s2) := by
  constructor
  · intro mem0 dev0
    simp [initialState, updFn, R_COND, R_PC]
  · intro s s2 hs hstep
    simp only [step] at hstep
    generalize hG : updFn s.reg R_PC ((s.reg R_PC + 1) % 65536) = G at hstep
    generalize (mem_read s.mem s.dev (s.reg R_PC)).1 = I at hstep
    generalize (mem_read s.mem s.dev (s.reg R_PC)).2.1 = M at hstep
    generalize (mem_read s.mem s.dev (s.reg R_PC)).2.2 = D at hstep
    have hs1 : flag3 ((St.mk G M D s.running).reg R_COND) := by
      show flag3 (G R_COND)
      rw [← hG, updFn_ne (by decide)]
      exact hs
    by_cases h0 : I >>> 12 = 0
    · rw [if_pos h0, Option.some.injEq] at hstep
      subst hstep
      exact flag3_br _ _ hs1
    rw [if_neg h0] at hstep
    by_cases h1 : I >>> 12 = 1
    · rw [if_pos h1, Option.some.injEq] at hstep
      subst hstep
      exact flag3_add _ _
    rw [if_neg h1] at hstep
    by_cases h2 : I >>> 12 = 2
    · rw [if_pos h2, Option.some.injEq] at hstep
      subst hstep
      exact flag3_ld _ _
    rw [if_neg h2] at hstep
    by_cases h3 : I >>> 12 = 3
    · rw [if_pos h3, Option.some.injEq] at hstep
      subst hstep
      exact flag3_st _ _ hs1
    rw [if_neg h3] at hstep
    by_cases h4 : I >>> 12 = 4
    · rw [if_pos h4, Option.some.injEq] at hstep
      subst hstep
      exact flag3_jsr _ _ hs1
    rw [if_neg h4] at hstep
    by_cases h5 : I >>> 12 = 5
    · rw [if_pos h5, Option.some.injEq] at hstep
      subst hstep
      exact flag3_and _ _
    rw [if_neg h5] at hstep
    by_cases h6 : I >>> 12 = 6
    · rw [if_pos h6, Option.some.injEq] at hstep
      subst hstep
      exact flag3_ldr _ _
    rw [if_neg h6] at hstep
    by_cases h7 : I >>> 12 = 7
    · rw [if_pos h7, Option.some.injEq] at hstep
      subst hstep
      exact flag3_str _ _ hs1
    rw [if_neg h7] at hstep
    by_cases h8 : I >>> 12 = 8
    · rw [if_pos h8] at hstep
      exact Option.noConfusion hstep
    rw [if_neg h8] at hstep
    by_cases h9 : I >>> 12 = 9
    · rw [if_pos h9, Option.some.injEq] at hstep
      subst hstep
      exact flag3_not _ _
    rw [if_neg h9] at hstep
    by_cases h10 : I >>> 12 = 10
    · rw [if_pos h10, Option.some.injEq] at hstep
      subst hstep
      exact flag3_ldi _ _
    rw [if_neg h10] at hstep
    by_cases h11 : I >>> 12 = 11
    · rw [if_pos h11, Option.some.injEq] at hstep
      subst hstep
      exact flag3_sti _ _ hs1
    rw [if_neg h11] at hstep
    by_cases h12 : I >>> 12 = 12
    · rw [if_pos h12, Option.some.injEq] at hstep
      subst hstep
      exact flag3_jmp _ _ hs1
    rw [if_neg h12] at hstep
    by_cases h13 : I >>> 12 = 13
    · rw [if_pos h13] at hstep
      exact Option.noConfusion hstep
    rw [if_neg h13] at hstep
    by_cases h14 : I >>> 12 = 14
    · rw [if_pos h14, Option.some.injEq] at hstep
      subst hstep
      exact flag3_lea _ _
    rw [if_neg h14] at hstep
    by_cases h15 : I >>> 12 = 15
    · rw [if_pos h15, Option.some.injEq] at hstep
      subst hstep
      exact flag3_trap _ _ hs1
    rw [if_neg h15] at hstep
    exact Option.noConfusion hstep

/-- C3 witness: one step from a flag-ZERO state keeps the invariant. -/
theorem c3_flag_invariant_witness :
    flagOK ((step stW).getD stW) :=
  c3_flag_invariant.2 stW ((step stW).getD stW) (by decide) rfl

/-- C7 witness: the TRAP instruction `0xF026` fetched at `PC = 0x3000`. -/
theorem c7_unknown_trap_witness :
    trap 0xF026 stT = stT ∧
    step stT = some { stT with reg := updFn stT.reg R_PC ((stT.reg R_PC + 1) % 65536) } :=
  ⟨(c7_unknown_trap 0xF026 stT (by decide) (by decide) (by decide) (by decide)
      (by decide) (by decide)).1,
    (c7_unknown_trap 0xF026 stT (by decide) (by decide) (by decide) (by decide)
      (by decide) (by decide)).2 (by decide) rfl (by decide)⟩

end LC3
